import Mathlib

/-!
# SOFS14 core: shallow embedding and verification of the specification claims

This file embeds, in Lean 4, the parts of the SOFS14 file-system source that
the specification claims talk about, and settles each claim against the
embedding.  The embedding follows the C sources under `src/sofs14` and
`src/mkfs14` statement by statement; machine integers are modelled as `Nat`
with explicit reduction modulo `2^32` where 32-bit wrap-around matters, C
functions that mutate global state become state-passing Lean functions, and
out-parameters become components of the returned value.

The project's header files (`sofs_const.h`, `sofs_superblock.h`,
`sofs_inode.h`, `sofs_datacluster.h`, `sofs_basicconsist.h`) are not part of
the source tree available here; the constants and the quick consistency
checks they declare are modelled from the specification text and are marked
`Modelled from the spec:` in their doc comments.
-/

namespace Sofs14

/-! ## Design constants

Modelled from the spec: the headers fixing these values are absent from the
source tree.  The spec (§3, §6) fixes `BLOCK_SIZE` = 512 bytes,
`BLOCKS_PER_CLUSTER` = 4, an inode record of 64 bytes (hence `IPB = 8` and
`N_DIRECT = 5`, since the listed fixed fields occupy 44 bytes), a data
cluster header of 12 bytes (hence `RPC = (2048 - 12)/4 = 509`), a directory
entry of `MAX_NAME + 1 = 60` name bytes plus a 4-byte inode number, and the
sentinel `NULL_INODE = NULL_CLUSTER = 0xFFFFFFFF`. -/

def BLOCK_SIZE : Nat := 512

def BLOCKS_PER_CLUSTER : Nat := 4

def CLUSTER_SIZE : Nat := BLOCKS_PER_CLUSTER * BLOCK_SIZE

/-- inodes per block of the inode table -/
def IPB : Nat := 8

/-- number of direct references in an inode -/
def N_DIRECT : Nat := 5

/-- references per (indirection) cluster -/
def RPC : Nat := 509

def MAX_FILE_CLUSTERS : Nat := N_DIRECT + RPC + RPC * RPC

def NULL_INODE : Nat := 0xFFFFFFFF

def NULL_CLUSTER : Nat := 0xFFFFFFFF

def MAX_NAME : Nat := 59

def MAX_PATH : Nat := 511

/-- Modelled from the spec: size of each of the two data-cluster caches kept
in the superblock (`DZONE_CACHE_SIZE` in the missing headers). -/
def DZONE_CACHE_SIZE : Nat := 10

/-- inode `mode` bits.  Modelled from the spec: §3 fixes four file-type bits
(free, dir, file, symlink) above the nine permission bits. -/
def INODE_FREE : Nat := 0x1000

def INODE_DIR : Nat := 0x200

def INODE_REG : Nat := 0x400

def INODE_SYMLINK : Nat := 0x800

def INODE_TYPE_MASK : Nat := INODE_DIR + INODE_REG + INODE_SYMLINK

/-- inode status arguments of `soReadInode` / `soWriteInode` -/
def IUIN : Nat := 0

def FDIN : Nat := 1

/-- `soQCheckStatDC` result values for a cluster status -/
def FREE_CLT : Nat := 0

def ALLOC_CLT : Nat := 1

/-! Error codes.  POSIX values are the Linux ones; the SOFS-specific codes
live in the missing `sofs_const.h`, so they are modelled from the spec as
distinct values (only their distinctness and sign matter to the claims). -/

def EINVAL : Int := 22

def ENOSPC : Int := 28

def EACCES : Int := 13

def ENOENT : Int := 2

def ENOTDIR : Int := 20

def ENAMETOOLONG : Int := 36

def ELOOP : Int := 40

def EBADF : Int := 9

def ELIBBAD : Int := 80

def ERELPATH : Int := 1001

def EIUININVAL : Int := 1002

def EFDININVAL : Int := 1003

def EFININVAL : Int := 1004

def ELDCININVAL : Int := 1005

def EDCINVAL : Int := 1006

def EDCARDYIL : Int := 1007

def EDCNOTIL : Int := 1008

def EWGINODENB : Int := 1009

def EDCNALINVAL : Int := 1010

/-! ## Data model -/

/-- An inode record (`SOInode`).  The C union overlaying `{aTime,next}` and
`{mTime,prev}` is modelled by the raw 32-bit slots `vD1` and `vD2`, exactly
as the source reads and writes them. -/
structure SOInode where
  mode : Nat
  refCount : Nat
  owner : Nat
  group : Nat
  size : Nat
  cluCount : Nat
  vD1 : Nat
  vD2 : Nat
  d : List Nat
  i1 : Nat
  i2 : Nat
  deriving Repr, DecidableEq

/-- A data cluster (`SODataClust`): the 12-byte header and, of the payload
union, the reference array (`info.ref`, used by indirection clusters) and the
name of the first directory entry (`info.de[0].name`, the only payload the
path resolver reads from a symlink's cluster). -/
structure SODataClust where
  prev : Nat
  next : Nat
  stat : Nat
  ref : List Nat
  de0name : String
  deriving Repr, DecidableEq

/-- One of the two bounded data-cluster caches of the superblock. -/
structure DZoneCache where
  cache : List Nat
  cacheIdx : Nat
  deriving Repr, DecidableEq

/-- The superblock fields the embedded operations touch (`SOSuperBlock`). -/
structure SOSuperBlock where
  iTotal : Nat
  iFree : Nat
  iHead : Nat
  iTail : Nat
  dZoneStart : Nat
  dZoneTotal : Nat
  dZoneFree : Nat
  dHead : Nat
  dTail : Nat
  dZoneRetriev : DZoneCache
  dZoneInsert : DZoneCache
  deriving Repr, DecidableEq

/-- The file-system state threaded through the embedded operations: the
in-memory superblock (the process-wide copy returned by
`soGetSuperBlock`), the on-disk superblock (updated only by
`soStoreSuperBlock`), the inode table, and the data zone.  The inode table
and the data zone are kept flat — block/cluster load-store pairs in the
source become direct reads and updates; the concrete states used by the
theorems below keep the inodes a single operation touches inside one table
block, where this modelling is exact. -/
structure FS where
  sb : SOSuperBlock
  diskSb : SOSuperBlock
  itable : List SOInode
  dzone : List SODataClust
  deriving Repr, DecidableEq

/-- `soStoreSuperBlock`: flush the in-memory superblock to disk. -/
def soStoreSuperBlock (fs : FS) : FS := { fs with diskSb := fs.sb }

/-- `soConvertRefInT` (sofs_basicoper): inode number to (block, offset);
`block = iTableStart + n / IPB`, `offset = n mod IPB` (spec §4.D).  In the
flat table the pair addresses index `n` itself, so only the offset is
needed by the embedding. -/
def soConvertRefInT (nInode : Nat) : Nat × Nat :=
  (1 + nInode / IPB, nInode % IPB)

/-- Read the cluster stored at physical block number `phys`
(`soReadCacheCluster`); the callers always pass
`phys = dZoneStart + L * BLOCKS_PER_CLUSTER` for a logical number `L`. -/
def soReadCacheCluster (fs : FS) (phys : Nat) : SODataClust :=
  fs.dzone.getD ((phys - fs.sb.dZoneStart) / BLOCKS_PER_CLUSTER)
    ⟨NULL_CLUSTER, NULL_CLUSTER, NULL_INODE, [], ""⟩

/-- Write a cluster at physical block number `phys` (`soWriteCacheCluster`). -/
def soWriteCacheCluster (fs : FS) (phys : Nat) (c : SODataClust) : FS :=
  { fs with dzone := fs.dzone.set ((phys - fs.sb.dZoneStart) / BLOCKS_PER_CLUSTER) c }

/-- Fetch inode `n` from the (flat) table. -/
def getInode (fs : FS) (n : Nat) : SOInode :=
  fs.itable.getD n ⟨0, 0, 0, 0, 0, 0, 0, 0, [], 0, 0⟩

/-- Update inode `n` in the (flat) table. -/
def setInode (fs : FS) (n : Nat) (i : SOInode) : FS :=
  { fs with itable := fs.itable.set n i }

/-! ## Quick consistency checks

Modelled from the spec: `sofs_basicconsist.h` and its implementation are not
in the source tree.  §4.C describes the cheap checks as range/count
invariants (no list walk); the doc comments quoted inside `soAllocInode.c`
describe the per-inode checks.  The definitions below implement those
descriptions as decidable checks returning `0` or the corresponding error. -/

/-- Modelled from the spec: quick check of the superblock metadata
(`soQCheckSuperBlock`): cache indices in range, heads/tails null or in
range, free counts bounded. -/
def soQCheckSuperBlock (fs : FS) : Int :=
  let sb := fs.sb
  if sb.dZoneRetriev.cacheIdx ≤ DZONE_CACHE_SIZE ∧
      sb.dZoneInsert.cacheIdx ≤ DZONE_CACHE_SIZE ∧
      (sb.iHead = NULL_INODE ∨ sb.iHead < sb.iTotal) ∧
      (sb.iTail = NULL_INODE ∨ sb.iTail < sb.iTotal) ∧
      (sb.dHead = NULL_CLUSTER ∨ sb.dHead < sb.dZoneTotal) ∧
      (sb.dTail = NULL_CLUSTER ∨ sb.dTail < sb.dZoneTotal) ∧
      sb.iFree ≤ sb.iTotal ∧ sb.dZoneFree ≤ sb.dZoneTotal then 0 else -ELIBBAD

/-- Modelled from the spec: quick check of the inode-table related
superblock fields (`soQCheckInT`). -/
def soQCheckInT (fs : FS) : Int :=
  let sb := fs.sb
  if (sb.iHead = NULL_INODE ∨ sb.iHead < sb.iTotal) ∧
      (sb.iTail = NULL_INODE ∨ sb.iTail < sb.iTotal) ∧
      ((sb.iHead = NULL_INODE) = (sb.iFree = 0)) ∧
      sb.iFree ≤ sb.iTotal then 0 else -EIUININVAL

/-- Modelled from the spec: quick check of the data-zone related superblock
fields (`soQCheckDZ`). -/
def soQCheckDZ (fs : FS) : Int :=
  let sb := fs.sb
  if (sb.dHead = NULL_CLUSTER ∨ sb.dHead < sb.dZoneTotal) ∧
      (sb.dTail = NULL_CLUSTER ∨ sb.dTail < sb.dZoneTotal) ∧
      sb.dZoneFree ≤ sb.dZoneTotal ∧
      sb.dZoneRetriev.cacheIdx ≤ DZONE_CACHE_SIZE ∧
      sb.dZoneInsert.cacheIdx ≤ DZONE_CACHE_SIZE then 0 else -ELIBBAD

/-- Modelled from the spec: quick check of an inode in use
(`soQCheckInodeIU`): the free bit is clear and exactly one type bit is
set. -/
def soQCheckInodeIU (i : SOInode) : Int :=
  if i.mode / INODE_FREE % 2 = 0 ∧
      (i.mode / INODE_DIR % 2 + i.mode / INODE_REG % 2 +
        i.mode / INODE_SYMLINK % 2 = 1) then 0 else -EIUININVAL

/-- Modelled from the spec: quick check of a free inode in the clean state
(`soQCheckFCInode`): only the values legal in the clean state are allowed —
free bit set, no type bit, and all other fields reset (§3 free-clean). -/
def soQCheckFCInode (i : SOInode) : Int :=
  if i.mode = INODE_FREE ∧ i.refCount = 0 ∧ i.size = 0 ∧ i.cluCount = 0 ∧
      i.d.all (· = NULL_CLUSTER) ∧ i.i1 = NULL_CLUSTER ∧ i.i2 = NULL_CLUSTER
    then 0 else -EFININVAL

/-- Modelled from the spec: quick check of a free inode in the dirty state
(`soQCheckFDInode`): the free bit is set together with the type bit of the
deleted file; `owner`, `group` and `size` are not checked. -/
def soQCheckFDInode (i : SOInode) : Int :=
  if i.mode / INODE_FREE % 2 = 1 ∧
      (i.mode / INODE_DIR % 2 + i.mode / INODE_REG % 2 +
        i.mode / INODE_SYMLINK % 2 = 1) then 0 else -EFDININVAL

/-- Modelled from the spec: `soQCheckStatDC` — report whether cluster
`nClust` is free (`stat == NULL_INODE`) or allocated. -/
def soQCheckStatDC (fs : FS) (nClust : Nat) : Int × Nat :=
  if nClust < fs.sb.dZoneTotal then
    let c := fs.dzone.getD nClust ⟨NULL_CLUSTER, NULL_CLUSTER, NULL_INODE, [], ""⟩
    (0, if c.stat = NULL_INODE then FREE_CLT else ALLOC_CLT)
  else (-EDCINVAL, FREE_CLT)

/-! ## Cluster allocator (sofs_ifuncs_1) -/

/-- File-cluster-map operation codes (sofs_ifuncs_3). -/
def GET : Nat := 0

def ALLOC : Nat := 1

def FREE : Nat := 2

def FREE_CLEAN : Nat := 3

def CLEAN : Nat := 4

/-- `soDeplete` (src/src/sofs14/sofs_ifuncs_1/soFreeDataCluster.c, lines
130-226): move the insertion cache onto the tail of the free-cluster list.
The cluster writes go to disk through the buffer cache, and the superblock
fields are updated in memory, but the `soStoreSuperBlock()` call at the end
of the source (lines 222-223) is commented out, so the on-disk superblock is
not touched.  When called with an empty insertion cache the source reads
`cache[cacheIdx - 1]`, i.e. `cache[-1]` (undefined behaviour); the embedding
truncates the index at 0. -/
def soDeplete (fs : FS) : Int × FS :=
  let sb := fs.sb
  let fs :=
    if sb.dTail ≠ NULL_CLUSTER then
      let phys := sb.dZoneStart + sb.dTail * BLOCKS_PER_CLUSTER
      let dc := soReadCacheCluster fs phys
      soWriteCacheCluster fs phys { dc with next := sb.dZoneInsert.cache.getD 0 0 }
    else fs
  let fs := (List.range sb.dZoneInsert.cacheIdx).foldl (fun fs k =>
    let fs :=
      if k = 0 then
        let phys := sb.dZoneStart + sb.dZoneInsert.cache.getD 0 0 * BLOCKS_PER_CLUSTER
        let dc := soReadCacheCluster fs phys
        soWriteCacheCluster fs phys { dc with prev := sb.dTail }
      else
        let phys := sb.dZoneStart + sb.dZoneInsert.cache.getD k 0 * BLOCKS_PER_CLUSTER
        let dc := soReadCacheCluster fs phys
        soWriteCacheCluster fs phys { dc with prev := sb.dZoneInsert.cache.getD (k - 1) 0 }
    if k ≠ sb.dZoneInsert.cacheIdx - 1 then
      let phys := sb.dZoneStart + sb.dZoneInsert.cache.getD k 0 * BLOCKS_PER_CLUSTER
      let dc := soReadCacheCluster fs phys
      soWriteCacheCluster fs phys { dc with next := sb.dZoneInsert.cache.getD (k + 1) 0 }
    else
      let phys := sb.dZoneStart +
        sb.dZoneInsert.cache.getD (sb.dZoneInsert.cacheIdx - 1) 0 * BLOCKS_PER_CLUSTER
      let dc := soReadCacheCluster fs phys
      soWriteCacheCluster fs phys { dc with next := NULL_CLUSTER }) fs
  let newTail := sb.dZoneInsert.cache.getD (sb.dZoneInsert.cacheIdx - 1) 0
  let newHead := if sb.dHead = NULL_CLUSTER then sb.dZoneInsert.cache.getD 0 0 else sb.dHead
  let zeroed := (List.range sb.dZoneInsert.cacheIdx).foldl
    (fun c k => c.set k NULL_CLUSTER) sb.dZoneInsert.cache
  (0, { fs with sb := { fs.sb with dTail := newTail, dHead := newHead,
                                   dZoneInsert := ⟨zeroed, 0⟩ } })

/-- `soFreeDataCluster` (src/src/sofs14/sofs_ifuncs_1/soFreeDataCluster.c,
lines 50-116).  Note the range check is `nClust > dZoneTotal` (accepting
`nClust == dZoneTotal`), as in the source line 67. -/
def soFreeDataCluster (fs : FS) (nClust : Nat) : Int × FS :=
  let p_sb := fs.sb
  if p_sb.dZoneTotal < nClust ∨ nClust = 0 then (-EINVAL, fs)
  else
    let chk := soQCheckStatDC fs nClust
    if chk.1 ≠ 0 then (chk.1, fs)
    else if chk.2 = FREE_CLT then (-EDCNALINVAL, fs)
    else
      let NFClt := p_sb.dZoneStart + nClust * BLOCKS_PER_CLUSTER
      let dc := soReadCacheCluster fs NFClt
      if dc.stat = NULL_INODE then (-EDCNALINVAL, fs)
      else
        let fs := soWriteCacheCluster fs NFClt
          { dc with prev := NULL_CLUSTER, next := NULL_CLUSTER }
        let dep : Int × FS :=
          if fs.sb.dZoneInsert.cacheIdx = DZONE_CACHE_SIZE then soDeplete fs else (0, fs)
        if dep.1 ≠ 0 then (dep.1, dep.2)
        else
          let fs := dep.2
          let ins := fs.sb.dZoneInsert
          let fs := { fs with sb := { fs.sb with
            dZoneInsert := ⟨ins.cache.set ins.cacheIdx nClust, ins.cacheIdx + 1⟩,
            dZoneFree := fs.sb.dZoneFree + 1 } }
          (0, soStoreSuperBlock fs)

/-- First extraction loop of `soReplenish` (lines 186-210): walk the free
list from `nL`, moving clusters into retrieval-cache slots `idxs`; stop
early when the list runs out.  Returns the state, the next list head, and
the slot at which the walk stopped (`none` when every slot was filled). -/
def replenishLoop (fs : FS) (nL : Nat) : List Nat → FS × Nat × Option Nat
  | [] => (fs, nL, none)
  | n :: rest =>
    if nL = NULL_CLUSTER then (fs, nL, some n)
    else
      let phys := fs.sb.dZoneStart + nL * BLOCKS_PER_CLUSTER
      let dc := soReadCacheCluster fs phys
      let fs := { fs with sb := { fs.sb with
        dZoneRetriev := ⟨fs.sb.dZoneRetriev.cache.set n nL, fs.sb.dZoneRetriev.cacheIdx⟩ } }
      let nL2 := dc.next
      let fs := soWriteCacheCluster fs phys
        { dc with prev := NULL_CLUSTER, next := NULL_CLUSTER }
      replenishLoop fs nL2 rest

/-- Second extraction loop of `soReplenish` (lines 221-235): identical but
with no empty-list check (the source reads from `NULL_CLUSTER * BPC` if the
insertion cache did not hold enough clusters; the embedding's out-of-range
read returns the default cluster). -/
def replenishLoop2 (fs : FS) (nL : Nat) : List Nat → FS × Nat
  | [] => (fs, nL)
  | n :: rest =>
    let phys := fs.sb.dZoneStart + nL * BLOCKS_PER_CLUSTER
    let dc := soReadCacheCluster fs phys
    let fs := { fs with sb := { fs.sb with
      dZoneRetriev := ⟨fs.sb.dZoneRetriev.cache.set n nL, fs.sb.dZoneRetriev.cacheIdx⟩ } }
    let nL2 := dc.next
    let fs := soWriteCacheCluster fs phys
      { dc with prev := NULL_CLUSTER, next := NULL_CLUSTER }
    replenishLoop2 fs nL2 rest

/-- `soReplenish` (src/src/sofs14/sofs_ifuncs_1/soAllocDataCluster.c, lines
167-267). -/
def soReplenish (fs : FS) : Int × FS :=
  if soQCheckSuperBlock fs ≠ 0 then (-ELIBBAD, fs)
  else
    let nctt := min fs.sb.dZoneFree DZONE_CACHE_SIZE
    let start := DZONE_CACHE_SIZE - nctt
    let r := replenishLoop fs fs.sb.dHead
      ((List.range DZONE_CACHE_SIZE).drop start)
    let fs := r.1
    let afterBreak : FS × Nat :=
      match r.2.2 with
      | none => (fs, r.2.1)
      | some n =>
        let fs := { fs with sb := { fs.sb with dHead := NULL_CLUSTER, dTail := NULL_CLUSTER } }
        let fs := (soDeplete fs).2
        replenishLoop2 fs fs.sb.dHead ((List.range DZONE_CACHE_SIZE).drop n)
    let fs := afterBreak.1
    let nL := afterBreak.2
    let fs :=
      if nL ≠ NULL_CLUSTER then
        let phys := fs.sb.dZoneStart + nL * BLOCKS_PER_CLUSTER
        let dc := soReadCacheCluster fs phys
        soWriteCacheCluster fs phys { dc with prev := NULL_CLUSTER }
      else fs
    let fs := { fs with sb := { fs.sb with
      dZoneRetriev := ⟨fs.sb.dZoneRetriev.cache, DZONE_CACHE_SIZE - nctt⟩,
      dHead := nL,
      dTail := if nL = NULL_CLUSTER then NULL_CLUSTER else fs.sb.dTail } }
    (0, soStoreSuperBlock fs)

/-- `soAllocDataCluster` (src/src/sofs14/sofs_ifuncs_1/soAllocDataCluster.c,
lines 63-153).  `hasP` models whether the caller passed a non-null
`p_nClust`; the returned `Option Nat` is the value stored through it.  The
return status of the `soReplenish` call is discarded, as at source line
112. -/
def soAllocDataCluster (fs : FS) (nInode : Nat) (hasP : Bool) : Int × FS × Option Nat :=
  let stat := soQCheckSuperBlock fs
  if stat ≠ 0 then (stat, fs, none)
  else
    let stat := soQCheckDZ fs
    if stat ≠ 0 then (stat, fs, none)
    else if nInode = 0 ∨ fs.sb.iTotal - 1 < nInode ∨ ¬hasP then (-EINVAL, fs, none)
    else if fs.sb.dZoneFree = 0 then (-ENOSPC, fs, none)
    else
      let stat := soQCheckInodeIU (getInode fs nInode)
      if stat ≠ 0 then (stat, fs, none)
      else
        let fs :=
          if fs.sb.dZoneRetriev.cacheIdx = DZONE_CACHE_SIZE then (soReplenish fs).2 else fs
        let nClust := fs.sb.dZoneRetriev.cache.getD fs.sb.dZoneRetriev.cacheIdx 0
        let chk := soQCheckStatDC fs nClust
        if chk.1 ≠ 0 then (chk.1, fs, none)
        else
          let rt := fs.sb.dZoneRetriev
          let fs := { fs with sb := { fs.sb with
            dZoneRetriev := ⟨rt.cache.set rt.cacheIdx NULL_CLUSTER, rt.cacheIdx + 1⟩,
            dZoneFree := fs.sb.dZoneFree - 1 } }
          let NFClt := fs.sb.dZoneStart + nClust * BLOCKS_PER_CLUSTER
          let dc := soReadCacheCluster fs NFClt
          let dc := { dc with prev := NULL_CLUSTER, next := NULL_CLUSTER, stat := nInode }
          if dc.stat ≠ nInode then (-EWGINODENB, fs, some nClust)
          else
            let fs := soWriteCacheCluster fs NFClt dc
            (0, soStoreSuperBlock fs, some nClust)

/-! ## Inode allocator (sofs_ifuncs_1) -/

/-- `soFreeInode` (src/src/sofs14/sofs_ifuncs_1/soFreeInode.c).
Line 66 of the source reads `if (nInode = 0 || nInode >= p_sb->iTotal)`:
since `||` binds tighter than `=`, this assigns the boolean value of
`0 || (nInode >= iTotal)` to `nInode` and tests that value, so every
in-range call (the original argument included `0`) proceeds with `nInode`
replaced by `0`.  The embedding reproduces this faithfully. -/
def soFreeInode (fs : FS) (nInode0 : Nat) : Int × FS :=
  let p_sb := fs.sb
  let nInode : Nat := if p_sb.iTotal ≤ nInode0 then 1 else 0
  if nInode ≠ 0 then (-EINVAL, fs)
  else
    let stat := soQCheckInT fs
    if stat ≠ 0 then (stat, fs)
    else
      let ino := getInode fs nInode
      let stat := soQCheckInodeIU ino
      if stat ≠ 0 then (stat, fs)
      else if p_sb.iFree = 0 then
        let fs := setInode fs nInode
          { ino with mode := ino.mode ||| INODE_FREE, vD2 := NULL_INODE, vD1 := NULL_INODE }
        let fs := { fs with sb := { fs.sb with iHead := nInode, iTail := nInode,
                                               iFree := fs.sb.iFree + 1 } }
        (0, soStoreSuperBlock fs)
      else
        let fs := setInode fs nInode
          { ino with vD2 := p_sb.iTail, vD1 := NULL_INODE, mode := ino.mode ||| INODE_FREE }
        let tailIno := getInode fs p_sb.iTail
        let fs := setInode fs p_sb.iTail { tailIno with vD1 := nInode }
        let fs := { fs with sb := { fs.sb with iTail := nInode, iFree := fs.sb.iFree + 1 } }
        (0, soStoreSuperBlock fs)

/-- `soCleanInode` (src/src/sofs14/sofs_ifuncs_2/soCleanInode.c): after the
range check and the free-dirty quick check it returns 0 — the function
validates the inode but cleans nothing (the body between the quick check
and `return 0` is empty in the source). -/
def soCleanInode (fs : FS) (nInode : Nat) : Int × FS :=
  if nInode = 0 ∨ fs.sb.iTotal ≤ nInode then (-EINVAL, fs)
  else
    let stat := soQCheckFDInode (getInode fs nInode)
    if stat ≠ 0 then (stat, fs)
    else (0, fs)

/-- `soAllocInode` (src/src/sofs14/sofs_ifuncs_1/soAllocInode.c).  The
source checks `soQCheckFCInode` twice (lines 112 and 118, the second one
commented as a dirty-state check) and calls `soCleanInode` when both fail;
the reinitialization block for `refCount`/`size`/`cluCount`/`d`/`i1`/`i2`
(lines 129-155) is commented out, so only `mode`, `owner`, `group` and the
timestamps are assigned.  When updating the new head's `prev` the source
patches the table through the block loaded for the old head without loading
the new head's block; the flat-table embedding coincides with the source
whenever both inodes live in the same table block, as in every state the
theorems below evaluate. -/
def soAllocInode (fs : FS) (type uid gid now : Nat) : Int × FS × Option Nat :=
  let p_sb := fs.sb
  if p_sb.iFree = 0 then (-ENOSPC, fs, none)
  else
    let n := p_sb.iHead
    let ino := getInode fs n
    let nextInode := ino.vD1
    if type &&& INODE_TYPE_MASK = 0 then (-EINVAL, fs, none)
    else
      let cleaned : Int × FS :=
        if soQCheckFCInode ino ≠ 0 then
          if soQCheckFCInode ino ≠ 0 then soCleanInode fs n
          else (0, fs)
        else (0, fs)
      if cleaned.1 ≠ 0 then (cleaned.1, fs, none)
      else
        let fs := cleaned.2
        let ino := getInode fs n
        let fs := setInode fs n
          { ino with mode := type, owner := uid, group := gid, vD1 := now, vD2 := now }
        let fs :=
          if p_sb.iFree = 1 then
            { fs with sb := { fs.sb with iHead := NULL_INODE, iTail := NULL_INODE } }
          else
            let nxt := getInode fs nextInode
            let fs := setInode fs nextInode { nxt with vD2 := NULL_INODE }
            { fs with sb := { fs.sb with iHead := nextInode } }
        let fs := { fs with sb := { fs.sb with iFree := fs.sb.iFree - 1 } }
        (0, soStoreSuperBlock fs, some n)

/-! ## A concrete, consistent file system state

`fsA` is a small well-formed state used to evaluate the inode-allocator
claims: 16 inodes (2 table blocks), 8 data clusters.  Inode 0 is the root
directory; inode 2 is an in-use regular file with no links; the free list
is `1 → 3` where inode 1 is free in the *dirty* state (it still records one
data cluster, `d[0] = 5`, and a stale size) and inode 3 is free-clean. -/

def dfltInode : SOInode := ⟨0, 0, 0, 0, 0, 0, 0, 0, [], 0, 0⟩

def rootInode : SOInode :=
  { mode := INODE_DIR ||| 0x1FF, refCount := 2, owner := 0, group := 0,
    size := 128, cluCount := 1, vD1 := 0, vD2 := 0,
    d := [0, NULL_CLUSTER, NULL_CLUSTER, NULL_CLUSTER, NULL_CLUSTER],
    i1 := NULL_CLUSTER, i2 := NULL_CLUSTER }

/-- free-dirty inode: deleted regular file still carrying stale references -/
def dirtyInode : SOInode :=
  { mode := INODE_FREE ||| INODE_REG, refCount := 0, owner := 7, group := 7,
    size := 100, cluCount := 1, vD1 := 3, vD2 := NULL_INODE,
    d := [5, NULL_CLUSTER, NULL_CLUSTER, NULL_CLUSTER, NULL_CLUSTER],
    i1 := NULL_CLUSTER, i2 := NULL_CLUSTER }

def regInode : SOInode :=
  { mode := INODE_REG ||| 0x1A4, refCount := 0, owner := 7, group := 7,
    size := 10, cluCount := 1, vD1 := 0, vD2 := 0,
    d := [2, NULL_CLUSTER, NULL_CLUSTER, NULL_CLUSTER, NULL_CLUSTER],
    i1 := NULL_CLUSTER, i2 := NULL_CLUSTER }

def cleanInode : SOInode :=
  { mode := INODE_FREE, refCount := 0, owner := 0, group := 0,
    size := 0, cluCount := 0, vD1 := NULL_INODE, vD2 := 1,
    d := List.replicate N_DIRECT NULL_CLUSTER,
    i1 := NULL_CLUSTER, i2 := NULL_CLUSTER }

def dfltClust : SODataClust := ⟨NULL_CLUSTER, NULL_CLUSTER, NULL_INODE, [], ""⟩

def fsA : FS :=
  let sb : SOSuperBlock :=
    { iTotal := 16, iFree := 2, iHead := 1, iTail := 3,
      dZoneStart := 3, dZoneTotal := 8, dZoneFree := 2,
      dHead := NULL_CLUSTER, dTail := NULL_CLUSTER,
      dZoneRetriev := ⟨List.replicate DZONE_CACHE_SIZE NULL_CLUSTER, DZONE_CACHE_SIZE⟩,
      dZoneInsert := ⟨List.replicate DZONE_CACHE_SIZE NULL_CLUSTER, 0⟩ }
  { sb := sb, diskSb := sb,
    itable := [rootInode, dirtyInode, regInode, cleanInode] ++
      List.replicate 12 dfltInode,
    dzone := List.replicate 8 dfltClust }

/-! ## Inode table access (sofs_ifuncs_2) -/

/-- `soReadInode` (src/src/sofs14/sofs_ifuncs_2/soReadInode.c).  After the
validations the source never copies the table entry into the caller's
buffer (the copy at lines 115-117 is commented out); the only write is
`p_inode[offset].vD1.aTime = time(NULL)` into the *caller's buffer* at index
`offset = nInode % IPB` — in bounds only when `offset = 0`, an out-of-bounds
store otherwise (undefined behaviour in C, left unmodelled: the embedding
updates the buffer for `offset = 0` and leaves it unchanged otherwise).
The inode table itself is stored back unmodified.  Note the range check is
`nInode <= 0 || nInode > p_sb->iTotal` (source line 82). -/
def soReadInode (fs : FS) (buf : Option SOInode) (nInode status now : Nat) :
    Int × FS × Option SOInode :=
  let stat := soQCheckSuperBlock fs
  if stat ≠ 0 then (stat, fs, buf)
  else
    let stat := soQCheckInT fs
    if stat ≠ 0 then (stat, fs, buf)
    else if buf = none then (-EINVAL, fs, buf)
    else if nInode = 0 ∨ fs.sb.iTotal < nInode then (-EINVAL, fs, buf)
    else
      let stat := if status = IUIN then soQCheckInodeIU (getInode fs nInode) else 0
      if stat ≠ 0 then (stat, fs, buf)
      else
        let stat := if status = FDIN then soQCheckFDInode (getInode fs nInode) else 0
        if stat ≠ 0 then (stat, fs, buf)
        else
          let buf := if nInode % IPB = 0 then buf.map (fun b => { b with vD1 := now }) else buf
          (0, soStoreSuperBlock fs, buf)

/-- `soWriteInode` (src/src/sofs14/sofs_ifuncs_2/soWriteInode.c): copy the
buffer over the table entry, check consistency, refresh the timestamps for
an in-use inode, and store.  On a failed check the loaded block is dropped
without being stored, so the table is unchanged.  Note the range check
rejects `nInode = 0` and `nInode >= iTotal` (source line 78). -/
def soWriteInode (fs : FS) (buf : Option SOInode) (nInode status now : Nat) : Int × FS :=
  let stat := soQCheckInT fs
  if stat ≠ 0 then (stat, fs)
  else
    match buf with
    | none => (-EINVAL, fs)
    | some b =>
      if status ≠ IUIN ∧ status ≠ FDIN then (-EINVAL, fs)
      else if ¬(0 < nInode ∧ nInode < fs.sb.iTotal) then (-EINVAL, fs)
      else
        let stat := if status = IUIN then soQCheckInodeIU b else 0
        if stat ≠ 0 then (stat, fs)
        else
          let stat := if status = FDIN then soQCheckFDInode b else 0
          if stat ≠ 0 then (stat, fs)
          else
            let b := if status = IUIN then { b with vD1 := now, vD2 := now } else b
            (0, soStoreSuperBlock (setInode fs nInode b))

/-! ## A concrete state for the data-cluster list (`fsB`)

Free-cluster list `3 ↔ 4`, insertion cache holding the free-dirty clusters
6 and 7 (`cacheIdx = 2`), retrieval cache empty. -/

def freeClust (p n : Nat) : SODataClust := ⟨p, n, NULL_INODE, [], ""⟩

def fsB : FS :=
  let sb : SOSuperBlock :=
    { iTotal := 16, iFree := 0, iHead := NULL_INODE, iTail := NULL_INODE,
      dZoneStart := 3, dZoneTotal := 8, dZoneFree := 4,
      dHead := 3, dTail := 4,
      dZoneRetriev := ⟨List.replicate DZONE_CACHE_SIZE NULL_CLUSTER, DZONE_CACHE_SIZE⟩,
      dZoneInsert :=
        ⟨[6, 7] ++ List.replicate (DZONE_CACHE_SIZE - 2) NULL_CLUSTER, 2⟩ }
  { sb := sb, diskSb := sb,
    itable := rootInode :: List.replicate 15 dfltInode,
    dzone := [dfltClust, dfltClust, dfltClust,
      freeClust NULL_CLUSTER 4, freeClust 3 NULL_CLUSTER, dfltClust,
      ⟨NULL_CLUSTER, NULL_CLUSTER, 2, [], ""⟩,
      ⟨NULL_CLUSTER, NULL_CLUSTER, 2, [], ""⟩] }

/-! ## File cluster map (sofs_ifuncs_3/soHandleFileCluster.c) -/

/-- `soCleanLogicalCluster` (soHandleFileCluster.c lines 823-843): verify
the cluster belongs to `nInode` and mark it clean (`stat := NULL_INODE`). -/
def soCleanLogicalCluster (fs : FS) (nInode nLClust : Nat) : Int × FS :=
  let phys := fs.sb.dZoneStart + nLClust * BLOCKS_PER_CLUSTER
  let dc := soReadCacheCluster fs phys
  if dc.stat ≠ nInode then (-EWGINODENB, fs)
  else (0, soWriteCacheCluster fs phys { dc with stat := NULL_INODE })

/-- Interface model of `soCleanDataCluster`
(src/src/sofs14/sofs_ifuncs_3/soCleanDataCluster.c).  The full function
re-walks the inode's reference lists and recursively dispatches `CLEAN`
through `soHandleFileCluster`; none of the claims settled below exercises
it (it is reached only from the FREE_CLEAN/CLEAN branches of the indirect
handlers), so it is modelled at its interface: the function's range checks,
then dissociation of the named cluster from the inode. -/
def soCleanDataCluster (fs : FS) (nInode nLClust : Nat) : Int × FS :=
  if fs.sb.iTotal ≤ nInode then (-EINVAL, fs)
  else if ¬(0 < nLClust ∧ nLClust < fs.sb.dZoneTotal) then (-EINVAL, fs)
  else soCleanLogicalCluster fs nInode nLClust

/-- `soHandleDirect` (soHandleFileCluster.c lines 177-263).  The result is
(status, state, inode buffer, value stored through `p_outVal`).
`soAttachLogicalCluster` opens with an unconditional `return 0` (the
"debugging" block at lines 784-786), so the ALLOC branch's attach call is
the identity. -/
def soHandleDirect (fs : FS) (nInode : Nat) (p_inode : SOInode) (clustInd op : Nat) :
    Int × FS × SOInode × Option Nat :=
  let NLClt := p_inode.d.getD clustInd 0
  if 4 < op then (-EINVAL, fs, p_inode, none)
  else if op = GET then (0, fs, p_inode, some NLClt)
  else if op = ALLOC then
    if NLClt ≠ NULL_CLUSTER then (-EDCARDYIL, fs, p_inode, none)
    else
      let al := soAllocDataCluster fs nInode true
      if al.1 ≠ 0 then (al.1, al.2.1, p_inode, none)
      else
        let c := al.2.2.getD 0
        (0, al.2.1,
          { p_inode with d := p_inode.d.set clustInd c,
                         cluCount := p_inode.cluCount + 1 }, some c)
  else if op = FREE then
    if NLClt = NULL_CLUSTER then (-EDCNOTIL, fs, p_inode, none)
    else
      let fr := soFreeDataCluster fs NLClt
      if fr.1 ≠ 0 then (fr.1, fr.2, p_inode, none)
      else
        (0, fr.2, { p_inode with d := p_inode.d.set clustInd NULL_CLUSTER,
                                 cluCount := p_inode.cluCount - 1 }, none)
  else if op = FREE_CLEAN then
    if NLClt = NULL_CLUSTER then (-EDCNOTIL, fs, p_inode, none)
    else
      let fr := soFreeDataCluster fs NLClt
      if fr.1 ≠ 0 then (fr.1, fr.2, p_inode, none)
      else
        let cl := soCleanLogicalCluster fr.2 nInode NLClt
        if cl.1 ≠ 0 then (cl.1, cl.2, p_inode, none)
        else
          (0, cl.2, { p_inode with cluCount := p_inode.cluCount - 1,
                                   d := p_inode.d.set clustInd NULL_CLUSTER }, none)
  else
    if NLClt = NULL_CLUSTER then (-EDCNOTIL, fs, p_inode, none)
    else
      let cl := soCleanLogicalCluster fs nInode NLClt
      if cl.1 ≠ 0 then (cl.1, cl.2, p_inode, none)
      else
        (0, cl.2, { p_inode with cluCount := p_inode.cluCount - 1,
                                 d := p_inode.d.set clustInd NULL_CLUSTER }, none)

/-- The ALLOC body of `soHandleSIndirect` (soHandleFileCluster.c lines
318-360), shared with the GET case: the GET branch for an unallocated `i1`
(lines 304-317) stores `NULL_CLUSTER` through `p_outVal` and has no
`return` or `break`, so control falls through into `case ALLOC`.  `ov0` is
the value already stored through `p_outVal` at entry (it remains in the
caller's variable on the error paths that return before line 349). -/
def sIndAllocBody (fs : FS) (nInode : Nat) (p_inode : SOInode) (ref_offset : Nat)
    (ov0 : Option Nat) : Int × FS × SOInode × Option Nat :=
  let step1 : Int × FS × SOInode :=
    if p_inode.i1 = NULL_CLUSTER then
      let al := soAllocDataCluster fs nInode true
      if al.1 ≠ 0 then (al.1, al.2.1, p_inode)
      else
        let p_inode := { p_inode with i1 := al.2.2.getD 0 }
        let fs := al.2.1
        let phys := fs.sb.dZoneStart + p_inode.i1 * BLOCKS_PER_CLUSTER
        let dc := soReadCacheCluster fs phys
        let dc := { dc with ref := List.replicate RPC NULL_CLUSTER }
        let p_inode := { p_inode with cluCount := p_inode.cluCount + 1 }
        (0, soWriteCacheCluster fs phys dc, p_inode)
    else (0, fs, p_inode)
  if step1.1 ≠ 0 then (step1.1, step1.2.1, step1.2.2, ov0)
  else
    let fs := step1.2.1
    let p_inode := step1.2.2
    let phys := fs.sb.dZoneStart + p_inode.i1 * BLOCKS_PER_CLUSTER
    let dc := soReadCacheCluster fs phys
    if dc.ref.getD ref_offset 0 ≠ NULL_CLUSTER then (-EDCARDYIL, fs, p_inode, ov0)
    else
      let al := soAllocDataCluster fs nInode true
      if al.1 ≠ 0 then (al.1, al.2.1, p_inode, ov0)
      else
        let nclust := al.2.2.getD 0
        let fs := soWriteCacheCluster al.2.1 phys
          { dc with ref := dc.ref.set ref_offset nclust }
        (0, fs, { p_inode with cluCount := p_inode.cluCount + 1 }, some nclust)

/-- `soHandleSIndirect` (soHandleFileCluster.c lines 290-483).  Notable
source behaviours reproduced here: the GET case falls through into ALLOC
when `i1` is unallocated; the FREE case stores the modified reference
cluster back (line 394) while FREE_CLEAN and CLEAN never store it; the
FREE_CLEAN case nulls the slot *before* passing it to
`soCleanLogicalCluster` (lines 417-420), so the clean always runs on
`NULL_CLUSTER`. -/
def soHandleSIndirect (fs : FS) (nInode : Nat) (p_inode : SOInode) (clustInd op : Nat) :
    Int × FS × SOInode × Option Nat :=
  if 4 < op then (-EINVAL, fs, p_inode, none)
  else
    let ref_offset := (clustInd - N_DIRECT) % RPC
    if op = GET then
      if p_inode.i1 = NULL_CLUSTER then
        sIndAllocBody fs nInode p_inode ref_offset (some NULL_CLUSTER)
      else
        let phys := fs.sb.dZoneStart + p_inode.i1 * BLOCKS_PER_CLUSTER
        let dc := soReadCacheCluster fs phys
        (0, fs, p_inode, some (dc.ref.getD ref_offset 0))
    else if op = ALLOC then sIndAllocBody fs nInode p_inode ref_offset none
    else if op = FREE then
      if p_inode.i1 = NULL_CLUSTER then (-EDCNOTIL, fs, p_inode, none)
      else
        let phys := fs.sb.dZoneStart + p_inode.i1 * BLOCKS_PER_CLUSTER
        let dc := soReadCacheCluster fs phys
        if dc.ref.getD ref_offset 0 = NULL_CLUSTER then (-EDCNOTIL, fs, p_inode, none)
        else if dc.stat ≠ nInode then (-EWGINODENB, fs, p_inode, none)
        else
          let fr := soFreeDataCluster fs (dc.ref.getD ref_offset 0)
          if fr.1 ≠ 0 then (fr.1, fr.2, p_inode, none)
          else
            let fs := fr.2
            let dc := { dc with ref := dc.ref.set ref_offset NULL_CLUSTER }
            let p_inode := { p_inode with cluCount := p_inode.cluCount - 1 }
            if dc.ref.all (· = NULL_CLUSTER) then
              let fr2 := soFreeDataCluster fs p_inode.i1
              if fr2.1 ≠ 0 then (fr2.1, fr2.2, p_inode, none)
              else
                (0, soWriteCacheCluster fr2.2 phys dc,
                  { p_inode with cluCount := p_inode.cluCount - 1,
                                 i1 := NULL_CLUSTER }, none)
            else (0, soWriteCacheCluster fs phys dc, p_inode, none)
    else if op = FREE_CLEAN then
      if p_inode.i1 = NULL_CLUSTER then (-EDCNOTIL, fs, p_inode, none)
      else
        let phys := fs.sb.dZoneStart + p_inode.i1 * BLOCKS_PER_CLUSTER
        let dc := soReadCacheCluster fs phys
        if dc.ref.getD ref_offset 0 = NULL_CLUSTER then (-EDCNOTIL, fs, p_inode, none)
        else if dc.stat ≠ nInode then (-EWGINODENB, fs, p_inode, none)
        else
          let fr := soFreeDataCluster fs (dc.ref.getD ref_offset 0)
          if fr.1 ≠ 0 then (fr.1, fr.2, p_inode, none)
          else
            let fs := fr.2
            let dc := { dc with ref := dc.ref.set ref_offset NULL_CLUSTER }
            let p_inode := { p_inode with cluCount := p_inode.cluCount - 1 }
            let cl := soCleanLogicalCluster fs nInode (dc.ref.getD ref_offset 0)
            if cl.1 ≠ 0 then (cl.1, cl.2, p_inode, none)
            else
              let fs := cl.2
              if dc.ref.all (· = NULL_CLUSTER) then
                let fr2 := soFreeDataCluster fs p_inode.i1
                if fr2.1 ≠ 0 then (fr2.1, fr2.2, p_inode, none)
                else
                  (0, fr2.2, { p_inode with i1 := NULL_CLUSTER,
                                            cluCount := p_inode.cluCount - 1 }, none)
              else (0, fs, p_inode, none)
    else
      if p_inode.i1 = NULL_CLUSTER then (-EDCNOTIL, fs, p_inode, none)
      else
        let phys := fs.sb.dZoneStart + p_inode.i1 * BLOCKS_PER_CLUSTER
        let dc := soReadCacheCluster fs phys
        if dc.ref.getD ref_offset 0 = NULL_CLUSTER then (-EDCNOTIL, fs, p_inode, none)
        else if dc.stat ≠ nInode then (-EWGINODENB, fs, p_inode, none)
        else
          let cl := soCleanDataCluster fs nInode (dc.ref.getD ref_offset 0)
          if cl.1 ≠ 0 then (cl.1, cl.2, p_inode, none)
          else
            let fs := cl.2
            let p_inode := { p_inode with cluCount := p_inode.cluCount - 1 }
            if dc.ref.all (· = NULL_CLUSTER) then
              let fr2 := soFreeDataCluster fs p_inode.i1
              if fr2.1 ≠ 0 then (fr2.1, fr2.2, p_inode, none)
              else
                (0, fr2.2, { p_inode with i1 := NULL_CLUSTER,
                                          cluCount := p_inode.cluCount - 1 }, none)
            else (0, fs, p_inode, none)

/-- `soHandleDIndirect` (soHandleFileCluster.c lines 510-759).  The slot
computations at lines 520-521 are
`ref_Soffset = (clustInd - N_DIRECT + RPC) / RPC` and
`ref_Doffset = (clustInd - N_DIRECT + RPC) % RPC` — note `+ RPC` where the
resolution rule calls for `- RPC`.  Other source behaviours reproduced:
the ALLOC case passes the never-assigned local `p_nclust = NULL` to every
`soAllocDataCluster` call, which therefore fails with `-EINVAL`; the line
591 already-allocated check reads the single-indirect cluster instead of
the direct-reference cluster; FREE modifies the direct-reference buffer but
stores the single-indirect buffer (line 634); FREE_CLEAN's load at line 653
omits the `* BLOCKS_PER_CLUSTER` factor and its second emptiness scan (line
684) uses C truthiness (`ref != 0`); CLEAN's load at line 710 reads the
cluster at `i2`'s own address and its failed clean propagates as the value
of `stat = (... != 0)`, i.e. `1` (line 718). -/
def soHandleDIndirect (fs : FS) (nInode : Nat) (p_inode : SOInode) (clustInd op : Nat) :
    Int × FS × SOInode × Option Nat :=
  if 4 < op then (-EINVAL, fs, p_inode, none)
  else
    let ref_Soffset := (clustInd - N_DIRECT + RPC) / RPC
    let ref_Doffset := (clustInd - N_DIRECT + RPC) % RPC
    let sphys := fs.sb.dZoneStart + p_inode.i2 * BLOCKS_PER_CLUSTER
    if op = GET then
      if p_inode.i2 = NULL_CLUSTER then (0, fs, p_inode, some NULL_CLUSTER)
      else
        let sdc := soReadCacheCluster fs sphys
        if sdc.ref.getD ref_Soffset 0 = NULL_CLUSTER then (0, fs, p_inode, some NULL_CLUSTER)
        else
          let dphys := fs.sb.dZoneStart + sdc.ref.getD ref_Soffset 0 * BLOCKS_PER_CLUSTER
          let ddc := soReadCacheCluster fs dphys
          (0, fs, p_inode, some (ddc.ref.getD ref_Doffset 0))
    else if op = ALLOC then
      if p_inode.i2 = NULL_CLUSTER then
        let al := soAllocDataCluster fs nInode false
        (al.1, al.2.1, p_inode, none)
      else
        let sdc := soReadCacheCluster fs sphys
        if sdc.ref.getD ref_Soffset 0 = NULL_CLUSTER then
          let al := soAllocDataCluster fs nInode false
          (al.1, al.2.1, p_inode, none)
        else if sdc.ref.getD ref_Doffset 0 ≠ NULL_CLUSTER then (-EDCARDYIL, fs, p_inode, none)
        else
          let al := soAllocDataCluster fs nInode false
          (al.1, al.2.1, p_inode, none)
    else if op = FREE then
      if p_inode.i2 = NULL_CLUSTER then (-EDCNOTIL, fs, p_inode, none)
      else
        let sdc := soReadCacheCluster fs sphys
        if sdc.ref.getD ref_Soffset 0 = NULL_CLUSTER then (-EDCNOTIL, fs, p_inode, none)
        else
          let dphys := fs.sb.dZoneStart + sdc.ref.getD ref_Soffset 0 * BLOCKS_PER_CLUSTER
          let ddc := soReadCacheCluster fs dphys
          if ddc.ref.getD ref_Doffset 0 = NULL_CLUSTER then (-EDCNOTIL, fs, p_inode, none)
          else
            let fr := soFreeDataCluster fs (ddc.ref.getD ref_Doffset 0)
            if fr.1 ≠ 0 then (fr.1, fr.2, p_inode, none)
            else
              (0, soWriteCacheCluster fr.2 sphys sdc,
                { p_inode with cluCount := p_inode.cluCount - 1 }, none)
    else if op = FREE_CLEAN then
      if p_inode.i2 = NULL_CLUSTER then (-EDCNOTIL, fs, p_inode, none)
      else
        let sdc := soReadCacheCluster fs sphys
        if sdc.ref.getD ref_Soffset 0 = NULL_CLUSTER then (-EDCNOTIL, fs, p_inode, none)
        else
          let dphys := fs.sb.dZoneStart + sdc.ref.getD ref_Soffset 0
          let ddc := soReadCacheCluster fs dphys
          if ddc.ref.getD ref_Doffset 0 = NULL_CLUSTER then (-EDCNOTIL, fs, p_inode, none)
          else
            let fr := soFreeDataCluster fs (ddc.ref.getD ref_Doffset 0)
            if fr.1 ≠ 0 then (fr.1, fr.2, p_inode, none)
            else
              let cl := soCleanDataCluster fr.2 nInode (ddc.ref.getD ref_Doffset 0)
              if cl.1 ≠ 0 then (cl.1, cl.2, p_inode, none)
              else
                let fs := cl.2
                let ddc := { ddc with ref := ddc.ref.set ref_Doffset NULL_CLUSTER }
                let p_inode := { p_inode with cluCount := p_inode.cluCount - 1 }
                let step2 : Int × FS × SOInode × SODataClust :=
                  if ddc.ref.all (· = NULL_CLUSTER) then
                    let fr2 := soFreeDataCluster fs (sdc.ref.getD ref_Soffset 0)
                    if fr2.1 ≠ 0 then (fr2.1, fr2.2, p_inode, sdc)
                    else
                      (0, fr2.2, { p_inode with cluCount := p_inode.cluCount - 1 },
                        { sdc with ref := sdc.ref.set ref_Soffset NULL_CLUSTER })
                  else (0, fs, p_inode, sdc)
                if step2.1 ≠ 0 then (step2.1, step2.2.1, step2.2.2.1, none)
                else
                  let fs := step2.2.1
                  let p_inode := step2.2.2.1
                  let sdc := step2.2.2.2
                  if sdc.ref.all (· = 0) then
                    let fr3 := soFreeDataCluster fs p_inode.i2
                    if fr3.1 ≠ 0 then (fr3.1, fr3.2, p_inode, none)
                    else
                      (0, fr3.2, { p_inode with cluCount := p_inode.cluCount - 1,
                                                i2 := NULL_CLUSTER }, none)
                  else (0, fs, p_inode, none)
    else
      if p_inode.i2 = NULL_CLUSTER then (-EDCNOTIL, fs, p_inode, none)
      else
        let sdc := soReadCacheCluster fs sphys
        if sdc.ref.getD ref_Soffset 0 = NULL_CLUSTER then (-EDCNOTIL, fs, p_inode, none)
        else
          let ddc := soReadCacheCluster fs sphys
          if ddc.ref.getD ref_Doffset 0 = NULL_CLUSTER then (-EDCNOTIL, fs, p_inode, none)
          else
            let cl := soCleanDataCluster fs nInode (ddc.ref.getD ref_Doffset 0)
            if cl.1 ≠ 0 then (1, cl.2, p_inode, none)
            else
              let fs := cl.2
              let ddc := { ddc with ref := ddc.ref.set ref_Doffset NULL_CLUSTER }
              let p_inode := { p_inode with cluCount := p_inode.cluCount - 1 }
              let step2 : Int × FS × SOInode × SODataClust :=
                if ddc.ref.all (· = NULL_CLUSTER) then
                  let fr2 := soFreeDataCluster fs (sdc.ref.getD ref_Soffset 0)
                  if fr2.1 ≠ 0 then (fr2.1, fr2.2, p_inode, sdc)
                  else
                    (0, fr2.2, { p_inode with cluCount := p_inode.cluCount - 1 },
                      { sdc with ref := sdc.ref.set ref_Soffset NULL_CLUSTER })
                else (0, fs, p_inode, sdc)
              if step2.1 ≠ 0 then (step2.1, step2.2.1, step2.2.2.1, none)
              else
                let fs := step2.2.1
                let p_inode := step2.2.2.1
                let sdc := step2.2.2.2
                if sdc.ref.all (· = NULL_CLUSTER) then
                  let fr3 := soFreeDataCluster fs p_inode.i2
                  if fr3.1 ≠ 0 then (fr3.1, fr3.2, p_inode, none)
                  else
                    (0, fr3.2, { p_inode with cluCount := p_inode.cluCount - 1,
                                              i2 := NULL_CLUSTER }, none)
                else (0, fs, p_inode, none)

/-- `soHandleFileCluster` (soHandleFileCluster.c lines 92-150).  `buf` is
the caller's stack buffer handed to `soReadInode`: the source's
`soReadInode` validates but never copies the table entry into it, so the
dispatch below operates on whatever the buffer held at the call (the
theorems below pass the actual table inode, the reading most favourable to
the specification).  After the dispatch the source has `if (GET) return 0;`
— `GET` is the constant 0, so the test is never taken and the modified
buffer is written back through `soWriteInode` for *every* operation, GET
included. -/
def soHandleFileCluster (fs : FS) (buf : SOInode) (now nInode clustInd op : Nat)
    (hasOut : Bool) : Int × FS × Option Nat :=
  if fs.sb.iTotal ≤ nInode then (-EINVAL, fs, none)
  else if MAX_FILE_CLUSTERS ≤ clustInd then (-EINVAL, fs, none)
  else if 4 < op then (-EINVAL, fs, none)
  else if (op = GET ∨ op = ALLOC) ∧ ¬hasOut then (-EINVAL, fs, none)
  else
    let rd := soReadInode fs (some buf) nInode (if op = CLEAN then FDIN else IUIN) now
    if rd.1 ≠ 0 then (rd.1, rd.2.1, none)
    else
      let fs := rd.2.1
      let inode := rd.2.2.getD dfltInode
      let h :=
        if clustInd < N_DIRECT then soHandleDirect fs nInode inode clustInd op
        else if clustInd < N_DIRECT + RPC then soHandleSIndirect fs nInode inode clustInd op
        else soHandleDIndirect fs nInode inode clustInd op
      if h.1 ≠ 0 then (h.1, h.2.1, h.2.2.2)
      else
        let wr := soWriteInode h.2.1 (some h.2.2.1) nInode IUIN now
        if wr.1 ≠ 0 then (wr.1, wr.2, h.2.2.2)
        else (0, wr.2, h.2.2.2)

/-- The spec's resolution rule for the double-indirect range (§4.H table),
stated from the spec's words for comparison with the code: slot
`s = (clustInd - N_DIRECT - RPC) / RPC` of cluster `i2`, then slot
`t = (clustInd - N_DIRECT - RPC) mod RPC` of the direct-reference cluster
that slot points to; `NULL_CLUSTER` when unallocated at any level. -/
def specDIndirectGet (fs : FS) (ino : SOInode) (clustInd : Nat) : Nat :=
  let y := clustInd - N_DIRECT - RPC
  if ino.i2 = NULL_CLUSTER then NULL_CLUSTER
  else
    let sng := fs.dzone.getD ino.i2 dfltClust
    let s := sng.ref.getD (y / RPC) 0
    if s = NULL_CLUSTER then NULL_CLUSTER
    else (fs.dzone.getD s dfltClust).ref.getD (y % RPC) 0

/-! ## Concrete states for the file-cluster map -/

/-- an in-use regular file inode with an empty cluster index -/
def fileInode8 : SOInode :=
  { mode := INODE_REG ||| 0x1A4, refCount := 1, owner := 7, group := 7,
    size := 0, cluCount := 0, vD1 := 0, vD2 := 0,
    d := List.replicate N_DIRECT NULL_CLUSTER,
    i1 := NULL_CLUSTER, i2 := NULL_CLUSTER }

/-- `fsC`: 16 inodes, 8 data clusters; inode 8 (block offset 0 of the
second inode-table block) is `fileInode8`; free clusters 2 and 3 sit in the
retrieval cache, the free list itself is empty. -/
def fsC : FS :=
  let sb : SOSuperBlock :=
    { iTotal := 16, iFree := 0, iHead := NULL_INODE, iTail := NULL_INODE,
      dZoneStart := 3, dZoneTotal := 8, dZoneFree := 2,
      dHead := NULL_CLUSTER, dTail := NULL_CLUSTER,
      dZoneRetriev := ⟨List.replicate 8 NULL_CLUSTER ++ [2, 3], 8⟩,
      dZoneInsert := ⟨List.replicate DZONE_CACHE_SIZE NULL_CLUSTER, 0⟩ }
  { sb := sb, diskSb := sb,
    itable := [rootInode] ++ List.replicate 7 dfltInode ++ [fileInode8] ++
      List.replicate 7 dfltInode,
    dzone := [dfltClust, dfltClust,
      ⟨NULL_CLUSTER, NULL_CLUSTER, NULL_INODE, List.replicate RPC 0, ""⟩,
      ⟨NULL_CLUSTER, NULL_CLUSTER, NULL_INODE, List.replicate RPC 0, ""⟩,
      dfltClust, dfltClust, dfltClust, dfltClust] }

/-- an in-use regular file inode using the double-indirect index: `i2 = 4`,
whose single-indirect cluster's slot 0 points to direct-reference cluster 5,
whose slot 0 holds leaf 7; direct slot 0 holds leaf 6 -/
def dIndInode8 : SOInode :=
  { mode := INODE_REG ||| 0x1A4, refCount := 1, owner := 7, group := 7,
    size := 0, cluCount := 4, vD1 := 0, vD2 := 0,
    d := [6, NULL_CLUSTER, NULL_CLUSTER, NULL_CLUSTER, NULL_CLUSTER],
    i1 := NULL_CLUSTER, i2 := 4 }

/-- `fsD`: inode 8 is `dIndInode8`; clusters 4 (single-indirect), 5
(direct-reference), 6 and 7 (leaves) belong to inode 8, cluster 2 is the
free list. -/
def fsD : FS :=
  let sb : SOSuperBlock :=
    { iTotal := 16, iFree := 0, iHead := NULL_INODE, iTail := NULL_INODE,
      dZoneStart := 3, dZoneTotal := 8, dZoneFree := 1,
      dHead := 2, dTail := 2,
      dZoneRetriev := ⟨List.replicate DZONE_CACHE_SIZE NULL_CLUSTER, DZONE_CACHE_SIZE⟩,
      dZoneInsert := ⟨List.replicate DZONE_CACHE_SIZE NULL_CLUSTER, 0⟩ }
  { sb := sb, diskSb := sb,
    itable := [rootInode] ++ List.replicate 7 dfltInode ++ [dIndInode8] ++
      List.replicate 7 dfltInode,
    dzone := [dfltClust, dfltClust, freeClust NULL_CLUSTER NULL_CLUSTER, dfltClust,
      ⟨NULL_CLUSTER, NULL_CLUSTER, 8, (List.replicate RPC NULL_CLUSTER).set 0 5, ""⟩,
      ⟨NULL_CLUSTER, NULL_CLUSTER, 8, (List.replicate RPC NULL_CLUSTER).set 0 7, ""⟩,
      ⟨NULL_CLUSTER, NULL_CLUSTER, 8, [], ""⟩,
      ⟨NULL_CLUSTER, NULL_CLUSTER, 8, [], ""⟩] }

/-! ## Access check (sofs_ifuncs_2/soAccessGranted.c) -/

/-- requested-operation bits -/
def R_OP : Nat := 4

def W_OP : Nat := 2

def X_OP : Nat := 1

/-- `soAccessGranted` (src/src/sofs14/sofs_ifuncs_2/soAccessGranted.c,
lines 63-121).  `uid` is the value of `getuid()`; the source never calls
`getgid()`, so the caller's `gid` parameter is unused — the group branch at
line 114 compares `getuid()` with the inode's group id.  For root (lines
107-111) any request containing R or W is granted, and otherwise any
request containing X is granted without consulting any permission bit.
Line 97's in-use test is `(mode ^ 0 << 12) == 0`, i.e. `mode == 0`. -/
def soAccessGranted (fs : FS) (uid gid nInode opRequested : Nat) : Int :=
  if 7 < opRequested ∨ opRequested = 0 then -EINVAL
  else if fs.sb.iTotal < nInode then -EINVAL
  else
    let ino := getInode fs nInode
    if ino.mode ^^^ (0 <<< 12) = 0 then -EINVAL
    else
      let stat := soQCheckInodeIU ino
      if stat ≠ 0 then stat
      else
        let owner := ino.mode >>> 6 &&& 7
        let group := ino.mode >>> 3 &&& 7
        let other := ino.mode &&& 7
        if uid = 0 then
          if 0 < opRequested &&& (R_OP ||| W_OP) then 0
          else if 0 < opRequested &&& X_OP then 0
          else -EACCES
        else if uid = ino.owner then
          if opRequested &&& owner = opRequested then 0 else -EACCES
        else if uid = ino.group then
          if opRequested &&& group = opRequested then 0 else -EACCES
        else
          if opRequested &&& other = opRequested then 0 else -EACCES

/-- The spec's permission rule (§4.K), stated from the spec's words for
comparison with the code: for root, R and W always, X iff some triple has
the execute bit; otherwise the triple selected by
`uid == owner ? owner : gid == group ? group : other` must contain every
requested bit. -/
def specAccessGranted (fs : FS) (uid gid nInode opRequested : Nat) : Int :=
  let ino := getInode fs nInode
  let owner := ino.mode >>> 6 &&& 7
  let group := ino.mode >>> 3 &&& 7
  let other := ino.mode &&& 7
  if uid = 0 then
    if opRequested &&& X_OP = 0 ∨ 0 < (owner ||| group ||| other) &&& X_OP then 0
    else -EACCES
  else
    let triple := if uid = ino.owner then owner
      else if gid = ino.group then group else other
    if opRequested &&& triple = opRequested then 0 else -EACCES

/-- inode whose owner is 1 and group is 5, with write permission only in
the group triple (mode permissions `0o020`) -/
def grpInode : SOInode :=
  { mode := INODE_REG ||| 0x10, refCount := 1, owner := 1, group := 5,
    size := 0, cluCount := 0, vD1 := 0, vD2 := 0,
    d := List.replicate N_DIRECT NULL_CLUSTER,
    i1 := NULL_CLUSTER, i2 := NULL_CLUSTER }

/-- `fsE`: the `fsA` population plus `grpInode` as inode 4, used by the
access-check claim. -/
def fsE : FS :=
  let sb : SOSuperBlock :=
    { iTotal := 16, iFree := 2, iHead := 1, iTail := 3,
      dZoneStart := 3, dZoneTotal := 8, dZoneFree := 2,
      dHead := NULL_CLUSTER, dTail := NULL_CLUSTER,
      dZoneRetriev := ⟨List.replicate DZONE_CACHE_SIZE NULL_CLUSTER, DZONE_CACHE_SIZE⟩,
      dZoneInsert := ⟨List.replicate DZONE_CACHE_SIZE NULL_CLUSTER, 0⟩ }
  { sb := sb, diskSb := sb,
    itable := [rootInode, dirtyInode, regInode, cleanInode, grpInode] ++
      List.replicate 11 dfltInode,
    dzone := List.replicate 8 dfltClust }

/-! ## mkfs (src/src/mkfs14/mkfs_sofs14.c) -/

/-- 32-bit truncation: the value a C `uint32_t` assignment stores. -/
def w32 (n : Nat) : Nat := n % 4294967296

/-- 32-bit subtraction `a - b` on `uint32_t` operands. -/
def sub32 (a b : Nat) : Nat :=
  (a % 4294967296 + 4294967296 - b % 4294967296) % 4294967296

/-- The architecture-parameter computation of `main` (mkfs_sofs14.c lines
139-151), in `uint32_t` arithmetic: total blocks, adjusted inode count and
cluster count.  `itotalReq` is the `-i` argument (0 when absent, in which
case the default `ntotal >> 3` applies); the final adjustment recomputes
`iblktotal = ntotal - 1 - nclusttotal * BLOCKS_PER_CLUSTER` and
`itotal = iblktotal * IPB`. -/
def mkfsParams (devSize itotalReq : Nat) : Nat × Nat × Nat :=
  let ntotal := w32 (devSize / BLOCK_SIZE)
  let itotal0 := if itotalReq = 0 then ntotal / 8 else w32 itotalReq
  let iblktotal0 := if itotal0 % IPB = 0 then itotal0 / IPB else itotal0 / IPB + 1
  let nclusttotal := sub32 (sub32 ntotal 1) iblktotal0 / BLOCKS_PER_CLUSTER
  let iblktotal := sub32 (sub32 ntotal 1) (w32 (nclusttotal * BLOCKS_PER_CLUSTER))
  let itotal := w32 (iblktotal * IPB)
  (ntotal, itotal, nclusttotal)

/-- The superblock fields assigned by `fillInSuperBlock` (mkfs_sofs14.c
lines 316-360) that the claims mention.  Note `iTableSize` is written as
`itotal / IPB + itotal % IPB` (line 333). -/
structure MkfsSB where
  nTotal : Nat
  iTableStart : Nat
  iTableSize : Nat
  iTotal : Nat
  iFree : Nat
  iHead : Nat
  iTail : Nat
  dZoneStart : Nat
  dZoneTotal : Nat
  dZoneFree : Nat
  dHead : Nat
  dTail : Nat
  deriving Repr, DecidableEq

def fillInSuperBlock (ntotal itotal nclusttotal : Nat) : MkfsSB :=
  { nTotal := ntotal,
    iTableStart := 1,
    iTableSize := itotal / IPB + itotal % IPB,
    iTotal := itotal,
    iFree := sub32 itotal 1,
    iHead := 1,
    iTail := sub32 itotal 1,
    dZoneStart := 1 + itotal / IPB + itotal % IPB,
    dZoneTotal := nclusttotal,
    dZoneFree := sub32 nclusttotal 1,
    dHead := 1,
    dTail := sub32 nclusttotal 1 }

/-- The superblock mkfs writes for a device of `devSize` bytes and a
requested inode count `itotalReq`. -/
def mkfsSuperBlock (devSize itotalReq : Nat) : MkfsSB :=
  let p := mkfsParams devSize itotalReq
  fillInSuperBlock p.1 p.2.1 p.2.2

/-! ## Path resolver (sofs_ifuncs_4/soGetDirEntryByPath.c) -/

/-- glibc `basename` as used by `soTraversePath`: last path component,
`"/"` for a path of slashes, `"."` for the empty string. -/
def cBasename (s : String) : String :=
  let l := s.data.reverse.dropWhile (· == '/')
  if l.isEmpty then (if s.data.isEmpty then "." else "/")
  else ⟨(l.takeWhile (· ≠ '/')).reverse⟩

/-- glibc `dirname` as used by `soTraversePath`: the path with its last
component removed, `"/"` at the root, `"."` when there is no slash. -/
def cDirname (s : String) : String :=
  let r := s.data.reverse.dropWhile (· == '/')
  let r2 := r.dropWhile (· ≠ '/')
  let r3 := r2.dropWhile (· == '/')
  if r.isEmpty then (if s.data.isEmpty then "." else "/")
  else if r2.isEmpty then "."
  else if r3.isEmpty then "/"
  else ⟨r3.reverse⟩

/-- The two `static` variables of soGetDirEntryByPath.c (lines 35-41). -/
structure RState where
  nSymLinks : Nat
  oldNInodeDir : Nat
  deriving Repr, DecidableEq

/-- The collaborators `soTraversePath` calls, modelled at their interfaces
(they live in other compilation units: `soGetDirEntryByName`,
`soAccessGranted`, `soReadInode`, `soReadFileCluster`): directory lookup,
execute-permission check, the mode of an inode, and the target string held
in the first directory-entry slot of a symlink's first cluster. -/
structure ResolverEnv where
  lookupEntry : Nat → String → Int × Nat
  accessX : Nat → Int
  inodeMode : Nat → Int × Nat
  symlinkText : Nat → Int × String

/-- `soTraversePath` (soGetDirEntryByPath.c lines 127-229), fuel-indexed:
`none` means the call chain exceeded the given recursion budget (the C
function has no other way to stop).  The arguments `d`/`e` are the values
behind `p_nInodeDir`/`p_nInodeEnt`; the state carries the two statics.
Faithful points: the symlink branch recurses on the target with *no* check
of `nSymLinks` against any limit — the counter is incremented only for
relative targets and is never compared with anything, and `-ELOOP` is never
produced anywhere in the function. -/
def soTraversePath (env : ResolverEnv) :
    Nat → String → Nat → Nat → RState → Option (Int × RState × Nat × Nat)
  | 0, _, _, _, _ => none
  | fuel + 1, ePath, d, e, st =>
    let path := cDirname ePath
    let name0 := cBasename ePath
    if path = "." then
      if st.nSymLinks ≠ 0 then
        let e1 := st.oldNInodeDir
        let st1 : RState := ⟨st.nSymLinks - 1, st.oldNInodeDir⟩
        let r := env.lookupEntry e1 name0
        if r.1 ≠ 0 then some (r.1, st1, d, e1)
        else some (0, st1, d, r.2)
      else some (0, st, d, e)
    else
      let name := if name0 = "/" then "." else name0
      if MAX_NAME < name.length then some (-ENAMETOOLONG, st, d, e)
      else if path = "/" ∧ name = "." then
        let r := env.lookupEntry 0 name
        if r.1 ≠ 0 then some (r.1, st, d, e)
        else some (0, st, r.2, r.2)
      else
        match soTraversePath env fuel path d e st with
        | none => none
        | some (stat, st1, d1, e1) =>
          if stat ≠ 0 then some (stat, st1, d1, e1)
          else
            let d2 := e1
            let a := env.accessX e1
            if a ≠ 0 then some (a, st1, d2, e1)
            else
              let r := env.lookupEntry e1 name
              if r.1 ≠ 0 then some (r.1, st1, d2, e1)
              else
                let e2 := r.2
                let m := env.inodeMode e2
                if m.1 ≠ 0 then some (m.1, st1, d2, e2)
                else if m.2 &&& INODE_SYMLINK ≠ 0 then
                  let rc := env.symlinkText e2
                  if rc.1 ≠ 0 then some (rc.1, st1, d2, e2)
                  else if rc.2.data.head? ≠ some '/' then
                    soTraversePath env fuel rc.2 d2 e2 ⟨st1.nSymLinks + 1, d2⟩
                  else
                    soTraversePath env fuel rc.2 d2 e2 st1
                else some (0, st1, d2, e2)

/-- `soGetDirEntryByPath` (soGetDirEntryByPath.c lines 79-99): length and
absolute-path validations, then the traversal starting from the program's
initial static state. -/
def soGetDirEntryByPath (env : ResolverEnv) (fuel : Nat) (ePath : String) :
    Option (Int × Nat × Nat) :=
  if MAX_PATH < ePath.length then some (-ENAMETOOLONG, 0, 0)
  else if ePath.data.head? ≠ some '/' then some (-ERELPATH, 0, 0)
  else
    match soTraversePath env fuel ePath 0 0 ⟨0, 0⟩ with
    | none => none
    | some (stat, _, d, e) => if stat ≠ 0 then some (stat, d, e) else some (0, d, e)

/-- The symlink cycle of spec scenario S6: the root directory (inode 0)
holds `l1 → inode 1` and `l2 → inode 2`, two symlinks whose targets are the
absolute paths `/l2` and `/l1` respectively. -/
def cycleEnv : ResolverEnv :=
  { lookupEntry := fun dir nm =>
      if dir = 0 ∧ nm = "." then (0, 0)
      else if dir = 0 ∧ nm = "l1" then (0, 1)
      else if dir = 0 ∧ nm = "l2" then (0, 2)
      else (-ENOENT, 0),
    accessX := fun _ => 0,
    inodeMode := fun n =>
      if n = 0 then (0, INODE_DIR ||| 0x1FF)
      else if n = 1 ∨ n = 2 then (0, INODE_SYMLINK ||| 0x1FF)
      else (-EINVAL, 0),
    symlinkText := fun n =>
      if n = 1 then (0, "/l2") else if n = 2 then (0, "/l1") else (-EINVAL, "") }

/-! ## Claims C1 and C5 -/

/-- **C1.**  The claim says `soFreeInode(n)` fails with `-EINVAL` for
`n = 0` and otherwise appends exactly `n` to the tail of the free list, so
that inode 0 is never freed.  On the code this is false: because line 66
*assigns* `0 || nInode >= iTotal` to `nInode`, the call with the in-range
inode number 2 succeeds but appends inode 0 (the root directory's inode) to
the free list — `iTail` becomes 0, the old tail's `next` becomes 0, and
inode 2 is left untouched — and the call with `n = 0` does not fail with
`-EINVAL` either. -/
theorem c1_soFreeInode_frees_inode0 :
    (soFreeInode fsA 2).1 = 0 ∧
    (soFreeInode fsA 2).2.sb.iTail = 0 ∧
    ((soFreeInode fsA 2).2.itable.getD 3 dfltInode).vD1 = 0 ∧
    (soFreeInode fsA 2).2.itable.getD 2 dfltInode = fsA.itable.getD 2 dfltInode ∧
    ((soFreeInode fsA 2).2.itable.getD 0 dfltInode).mode =
      rootInode.mode ||| INODE_FREE ∧
    (soFreeInode fsA 0).1 = 0 := by
  decide

/-- **C5.**  The claim says every inode returned by `soAllocInode` is fully
reinitialized (free-dirty head cleaned first; `refCount = size = cluCount
= 0`, every `d[]` and `i1`, `i2` equal to `NULL_CLUSTER`).  On the code this
is false: `soCleanInode` only validates and cleans nothing, and the
reinitialization block of `soAllocInode` is commented out, so allocating
from `fsA` (whose free-list head, inode 1, is free-dirty with `d[0] = 5`,
`size = 100`, `cluCount = 1`) succeeds and returns inode 1 still carrying
all the stale fields. -/
theorem c5_soAllocInode_returns_stale_inode :
    (soAllocInode fsA INODE_REG 9 9 1000).1 = 0 ∧
    (soAllocInode fsA INODE_REG 9 9 1000).2.2 = some 1 ∧
    ((soAllocInode fsA INODE_REG 9 9 1000).2.1.itable.getD 1 dfltInode).d.getD 0 0 = 5 ∧
    ((soAllocInode fsA INODE_REG 9 9 1000).2.1.itable.getD 1 dfltInode).size = 100 ∧
    ((soAllocInode fsA INODE_REG 9 9 1000).2.1.itable.getD 1 dfltInode).cluCount = 1 ∧
    ((soAllocInode fsA INODE_REG 9 9 1000).2.1.itable.getD 1 dfltInode).mode = INODE_REG := by
  decide

/-! ## Claims C2, C6, C7 (file cluster map) and C4 (access check) -/

/-- **C2.**  The claim says GET stores the logical cluster number at
`clustInd` (or `NULL_CLUSTER` when any level is unallocated) and never
mutates anything.  On the code this is false twice over.  (a) In
`soHandleSIndirect` the GET case for an unallocated `i1` falls through into
`case ALLOC`: the GET of index `N_DIRECT` on `fsC` (where `i1 =
NULL_CLUSTER`, so the claim requires `*p_outVal = NULL_CLUSTER` and no
change) succeeds, returns the freshly allocated cluster 3, allocates
cluster 2 as `i1`, and consumes both free clusters.  (b) At
`soHandleFileCluster` line 144 `if (GET)` tests the constant 0, so even a
pure direct GET writes the inode buffer back through `soWriteInode`,
refreshing the table inode's timestamps (`vD1` becomes the current time
777). -/
theorem c2_get_falls_through_to_alloc :
    (soHandleFileCluster fsC fileInode8 777 8 N_DIRECT GET true).1 = 0 ∧
    (soHandleFileCluster fsC fileInode8 777 8 N_DIRECT GET true).2.2 = some 3 ∧
    (getInode (soHandleFileCluster fsC fileInode8 777 8 N_DIRECT GET true).2.1 8).i1 = 2 ∧
    (getInode fsC 8).i1 = NULL_CLUSTER ∧
    (soHandleFileCluster fsC fileInode8 777 8 N_DIRECT GET true).2.1.sb.dZoneFree = 0 ∧
    fsC.sb.dZoneFree = 2 ∧
    (soHandleFileCluster fsC fileInode8 777 8 0 GET true).1 = 0 ∧
    (soHandleFileCluster fsC fileInode8 777 8 0 GET true).2.2 = some NULL_CLUSTER ∧
    (getInode (soHandleFileCluster fsC fileInode8 777 8 0 GET true).2.1 8).vD1 = 777 ∧
    (getInode fsC 8).vD1 = 0 := by
  decide

/-- **C6.**  The claim says the double-indirect range resolves through slot
`s = (clustInd - N_DIRECT - RPC)/RPC` of `i2` and slot
`t = (clustInd - N_DIRECT - RPC) mod RPC` of the direct-reference cluster.
On the code this is false: lines 520-521 compute the slots from
`clustInd - N_DIRECT + RPC`, shifting `s` by 2.  At the first
double-indirect index `clustInd = N_DIRECT + RPC = 514` on `fsD` the spec
rule resolves to leaf 7 (slot 0 of `i2`, then slot 0 of cluster 5), but the
code reads slot 2 of `i2` — unallocated — and reports `NULL_CLUSTER`. -/
theorem c6_dindirect_slot_shifted_by_two :
    N_DIRECT + RPC = 514 ∧
    specDIndirectGet fsD dIndInode8 514 = 7 ∧
    (soHandleFileCluster fsD dIndInode8 777 8 514 GET true).1 = 0 ∧
    (soHandleFileCluster fsD dIndInode8 777 8 514 GET true).2.2 = some NULL_CLUSTER ∧
    (soHandleFileCluster fsD dIndInode8 777 8 514 GET true).2.2 ≠
      some (specDIndirectGet fsD dIndInode8 514) := by
  decide

/-- **C7 (counterexample).**  The claim says FREE on a non-null slot frees
the leaf but leaves the slot's reference in place and `cluCount` unchanged.
On the code this is false: FREE of direct index 0 on `fsD` (slot holds leaf
6, `cluCount = 4`) succeeds, and afterwards the slot holds `NULL_CLUSTER`
(not 6) and `cluCount` is 3. -/
theorem c7_free_counterexample :
    (soHandleFileCluster fsD dIndInode8 777 8 0 FREE false).1 = 0 ∧
    (getInode fsD 8).d.getD 0 0 = 6 ∧
    (getInode (soHandleFileCluster fsD dIndInode8 777 8 0 FREE false).2.1 8).d.getD 0 0 =
      NULL_CLUSTER ∧
    (getInode fsD 8).cluCount = 4 ∧
    (getInode (soHandleFileCluster fsD dIndInode8 777 8 0 FREE false).2.1 8).cluCount = 3 := by
  decide

/-- **C7 (amended).**  What the code actually does: FREE on a null slot
fails with `-EDCNOTIL` (direct handler, and single-indirect handler when
`i1` is unallocated), and FREE on a non-null direct slot frees the leaf
through `soFreeDataCluster`, *nulls* the slot and *decrements*
`cluCount`. -/
theorem c7_free_amended (fs : FS) (nInode clustInd : Nat) (ino : SOInode) :
    (ino.d.getD clustInd 0 = NULL_CLUSTER →
      soHandleDirect fs nInode ino clustInd FREE = (-EDCNOTIL, fs, ino, none)) ∧
    (ino.i1 = NULL_CLUSTER →
      soHandleSIndirect fs nInode ino clustInd FREE = (-EDCNOTIL, fs, ino, none)) ∧
    (∀ c, ino.d.getD clustInd 0 = c → c ≠ NULL_CLUSTER →
      (soFreeDataCluster fs c).1 = 0 →
      soHandleDirect fs nInode ino clustInd FREE =
        (0, (soFreeDataCluster fs c).2,
          { ino with d := ino.d.set clustInd NULL_CLUSTER,
                     cluCount := ino.cluCount - 1 }, none)) := by
  refine ⟨?_, ?_, ?_⟩
  · intro h
    simp only [List.getD_eq_getElem?_getD] at h
    simp [soHandleDirect, FREE, GET, ALLOC, h]
  · intro h
    simp [soHandleSIndirect, FREE, GET, ALLOC, h]
  · intro c hc hne hfr
    simp only [List.getD_eq_getElem?_getD] at hc
    simp [soHandleDirect, FREE, GET, ALLOC, hc, hne, hfr]

/-- Witness for the amended C7 at the concrete state `fsD`. -/
theorem c7_free_amended_witness :
    soHandleDirect fsD 8 dIndInode8 1 FREE = (-EDCNOTIL, fsD, dIndInode8, none) ∧
    soHandleSIndirect fsD 8 dIndInode8 10 FREE = (-EDCNOTIL, fsD, dIndInode8, none) ∧
    soHandleDirect fsD 8 dIndInode8 0 FREE =
      (0, (soFreeDataCluster fsD 6).2,
        { dIndInode8 with d := dIndInode8.d.set 0 NULL_CLUSTER,
                          cluCount := dIndInode8.cluCount - 1 }, none) :=
  ⟨(c7_free_amended fsD 8 1 dIndInode8).1 (by decide),
   (c7_free_amended fsD 8 10 dIndInode8).2.1 (by decide),
   (c7_free_amended fsD 8 0 dIndInode8).2.2 6 (by decide) (by decide) (by decide)⟩

/-- **C4.**  The claim says root is granted X iff some permission triple
has the execute bit, and a non-root caller is checked against the triple
selected by `uid == owner ? owner : gid == group ? group : other`.  On the
code this is false twice over: root requesting X on inode 2 (permissions
`0644`, no execute bit anywhere) is granted (line 110 tests only the
request mask), and a caller with `uid = 5, gid = 9` requesting W on inode 4
(owner 1, group 5, permissions `0020`) is granted because line 114 compares
`getuid()` — not the caller's gid — with the inode's group.  The spec-side
rule `specAccessGranted` denies both. -/
theorem c4_soAccessGranted_divergences :
    soAccessGranted fsE 0 0 2 X_OP = 0 ∧
    specAccessGranted fsE 0 0 2 X_OP = -EACCES ∧
    soAccessGranted fsE 5 9 4 W_OP = 0 ∧
    specAccessGranted fsE 5 9 4 W_OP = -EACCES := by
  decide

/-! ## Claim C8 -/

/-- **C8.**  The claim says every successful `soDeplete` stores the
superblock to disk before returning, so that the on-disk superblock shows
the new `dTail`, the zeroed insertion-cache slots and `insertIdx = 0`.  On
the code this is false: the `soStoreSuperBlock()` at the end of `soDeplete`
is commented out (soFreeDataCluster.c lines 222-223).  Depleting `fsB`
succeeds and updates the in-memory superblock (`dTail = 7`, cache zeroed,
index 0) but leaves the on-disk superblock exactly as before (`dTail = 4`,
two cached entries, index 2). -/
theorem c8_soDeplete_does_not_flush :
    (soDeplete fsB).1 = 0 ∧
    (soDeplete fsB).2.sb.dTail = 7 ∧
    (soDeplete fsB).2.sb.dZoneInsert.cacheIdx = 0 ∧
    (soDeplete fsB).2.sb.dZoneInsert.cache.getD 0 0 = NULL_CLUSTER ∧
    (soDeplete fsB).2.diskSb = fsB.diskSb ∧
    fsB.diskSb.dTail = 4 ∧
    fsB.diskSb.dZoneInsert.cacheIdx = 2 ∧
    fsB.diskSb.dZoneInsert.cache.getD 0 0 = 6 := by
  decide

/-- **C8 (amended).**  What the code actually guarantees: `soDeplete`
itself never stores the superblock, but every *enclosing* operation does —
a successful `soFreeDataCluster` (the only caller that triggers deplete on
a full cache) and a successful `soReplenish` both end with
`soStoreSuperBlock`, so the on-disk superblock matches the in-memory one
when they return. -/
theorem c8_enclosing_ops_flush (fs : FS) (nClust : Nat)
    (h : (soFreeDataCluster fs nClust).1 = 0) :
    (soFreeDataCluster fs nClust).2.diskSb = (soFreeDataCluster fs nClust).2.sb ∧
    ((soReplenish fs).1 = 0 →
      (soReplenish fs).2.diskSb = (soReplenish fs).2.sb) := by
  constructor
  · simp only [soFreeDataCluster, soStoreSuperBlock] at h ⊢
    split_ifs at h ⊢ <;> simp_all [EINVAL, EDCNALINVAL]
  · intro h2
    simp only [soReplenish, soStoreSuperBlock] at h2 ⊢
    split_ifs at h2 ⊢ <;> simp_all [ELIBBAD]

/-- Witness for the amended C8: freeing the allocated cluster 6 of `fsB`
succeeds. -/
theorem c8_enclosing_ops_flush_witness :
    (soFreeDataCluster fsB 6).2.diskSb = (soFreeDataCluster fsB 6).2.sb ∧
    ((soReplenish fsB).1 = 0 →
      (soReplenish fsB).2.diskSb = (soReplenish fsB).2.sb) :=
  c8_enclosing_ops_flush fsB 6 (by decide)

/-! ## Claim C10 -/

/-- **C10.**  For every call with inode number 0 — on any state whose
superblock, inode-table and data-zone quick checks pass — `soReadInode`,
`soWriteInode` and `soAllocDataCluster` all return `-EINVAL`: inode 0, the
root directory's inode, can never be read, written, or have a data cluster
allocated through these operations. -/
theorem c10_inode0_rejected (fs : FS) (buf : Option SOInode) (status now : Nat)
    (hasP : Bool)
    (h1 : soQCheckSuperBlock fs = 0) (h2 : soQCheckInT fs = 0)
    (h3 : soQCheckDZ fs = 0) :
    (soReadInode fs buf 0 status now).1 = -EINVAL ∧
    (soWriteInode fs buf 0 status now).1 = -EINVAL ∧
    (soAllocDataCluster fs 0 hasP).1 = -EINVAL := by
  refine ⟨?_, ?_, ?_⟩
  · unfold soReadInode
    rw [h1, h2]
    cases buf <;> simp
  · unfold soWriteInode
    rw [h2]
    cases buf <;> simp
  · unfold soAllocDataCluster
    rw [h1, h3]
    simp

/-- Witness for C10 at the concrete consistent state `fsA`. -/
theorem c10_inode0_rejected_witness :
    (soReadInode fsA (some dfltInode) 0 IUIN 0).1 = -EINVAL ∧
    (soWriteInode fsA (some dfltInode) 0 IUIN 0).1 = -EINVAL ∧
    (soAllocDataCluster fsA 0 true).1 = -EINVAL :=
  c10_inode0_rejected fsA (some dfltInode) IUIN 0 true (by decide) (by decide)
    (by decide)

/-! ## Claim C9 -/

/-- The arithmetic core of the mkfs adjustment, on 32-bit values: for any
total block count `N < 2^32` and initial inode-table block estimate
`B ≤ 2^28 + 1`, the adjusted table size divides back exactly and the layout
identity holds modulo `2^32`. -/
theorem mkfs_arith (N B : Nat) (hN : N < 4294967296) (hB : B ≤ 2 ^ 28 + 1) :
    (w32 (sub32 (sub32 N 1) (w32 (sub32 (sub32 N 1) B / 4 * 4)) * 8) / 8 +
        w32 (sub32 (sub32 N 1) (w32 (sub32 (sub32 N 1) B / 4 * 4)) * 8) % 8) * 8 =
      w32 (sub32 (sub32 N 1) (w32 (sub32 (sub32 N 1) B / 4 * 4)) * 8) ∧
    w32 (1 +
        (w32 (sub32 (sub32 N 1) (w32 (sub32 (sub32 N 1) B / 4 * 4)) * 8) / 8 +
          w32 (sub32 (sub32 N 1) (w32 (sub32 (sub32 N 1) B / 4 * 4)) * 8) % 8) +
        sub32 (sub32 N 1) B / 4 * 4) = N := by
  simp only [w32, sub32]
  omega

/-- **C9 (counterexample).**  The claim asserts the exact identity
`nTotal == 1 + iTableSize + dZoneTotal * BPC` for *every* device size.  A
zero-byte backing file passes the size check (`0 % BLOCK_SIZE == 0`), and
`ntotal - 1` then wraps around in `uint32_t`: mkfs writes
`nTotal = 0`, `iTableSize = 3`, `dZoneTotal = 1073741823`, for which
`1 + 3 + 1073741823*4 = 2^32 ≠ 0`; the left identity
`iTableSize * IPB == iTotal` still holds. -/
theorem c9_mkfs_identity_counterexample :
    (mkfsSuperBlock 0 0).nTotal = 0 ∧
    (mkfsSuperBlock 0 0).iTableSize = 3 ∧
    (mkfsSuperBlock 0 0).dZoneTotal = 1073741823 ∧
    (mkfsSuperBlock 0 0).iTableSize * IPB = (mkfsSuperBlock 0 0).iTotal ∧
    1 + (mkfsSuperBlock 0 0).iTableSize +
        (mkfsSuperBlock 0 0).dZoneTotal * BLOCKS_PER_CLUSTER ≠
      (mkfsSuperBlock 0 0).nTotal := by
  decide

/-- **C9 (amended).**  For every device size that passes mkfs's
block-multiple check and every representable `-i` request, the superblock
written by mkfs satisfies `iTableSize * IPB == iTotal` exactly, and
`nTotal == 1 + iTableSize + dZoneTotal * BPC` in the 32-bit arithmetic the
fields are computed in (modulo `2^32`); the identities are exact whenever
the intermediate `uint32_t` computation does not wrap (any device with at
least one block and a request of at most `8 * (ntotal - 1)` inodes). -/
theorem c9_mkfs_identities_mod32 (devSize itotalReq : Nat)
    (hreq : itotalReq < 2 ^ 31) (hdev : devSize % BLOCK_SIZE = 0) :
    (mkfsSuperBlock devSize itotalReq).iTableSize * IPB =
      (mkfsSuperBlock devSize itotalReq).iTotal ∧
    w32 (1 + (mkfsSuperBlock devSize itotalReq).iTableSize +
        (mkfsSuperBlock devSize itotalReq).dZoneTotal * BLOCKS_PER_CLUSTER) =
      (mkfsSuperBlock devSize itotalReq).nTotal := by
  have hN : w32 (devSize / 512) < 4294967296 := by
    simp only [w32]
    omega
  simp only [mkfsSuperBlock, mkfsParams, fillInSuperBlock, IPB,
    BLOCKS_PER_CLUSTER, BLOCK_SIZE]
  split_ifs with h1 h2 h2
  · exact mkfs_arith _ _ hN (by simp only [w32] at *; omega)
  · exact mkfs_arith _ _ hN (by simp only [w32] at *; omega)
  · exact mkfs_arith _ _ hN (by simp only [w32] at *; omega)
  · exact mkfs_arith _ _ hN (by simp only [w32] at *; omega)

/-- Witness for the amended C9 on a 4096-block (2 MiB) device with the
default inode count. -/
theorem c9_mkfs_identities_mod32_witness :
    (mkfsSuperBlock 2097152 0).iTableSize * IPB = (mkfsSuperBlock 2097152 0).iTotal ∧
    w32 (1 + (mkfsSuperBlock 2097152 0).iTableSize +
        (mkfsSuperBlock 2097152 0).dZoneTotal * BLOCKS_PER_CLUSTER) =
      (mkfsSuperBlock 2097152 0).nTotal :=
  c9_mkfs_identities_mod32 2097152 0 (by decide) (by decide)

/-! ## Claim C3 -/

/-- **C3.**  The claim says path resolution always terminates, following at
most a configured number of symbolic links and failing with `-ELOOP` beyond
it.  On the code this is false: for an absolute symlink target
`soTraversePath` recurses on the target with no counter update and no limit
check (and no limit check exists for relative targets either — `-ELOOP` is
never returned by any path of the function), so on the cycle
`/l1 → /l2 → /l1` of `cycleEnv` the recursion never returns: for *every*
recursion budget, resolving `/l1` (or `/l2`, from any argument values and
any static-counter state) exhausts the budget instead of producing any
result, `-ELOOP` included. -/
theorem c3_symlink_cycle_never_terminates :
    ∀ fuel : Nat,
      (∀ (d e : Nat) (st : RState),
        soTraversePath cycleEnv fuel "/l1" d e st = none ∧
        soTraversePath cycleEnv fuel "/l2" d e st = none) ∧
      soGetDirEntryByPath cycleEnv fuel "/l1" = none := by
  intro fuel
  have main : ∀ (d e : Nat) (st : RState),
      soTraversePath cycleEnv fuel "/l1" d e st = none ∧
      soTraversePath cycleEnv fuel "/l2" d e st = none := by
    induction fuel with
    | zero => exact fun d e st => ⟨rfl, rfl⟩
    | succ n ih =>
      cases n with
      | zero => exact fun d e st => ⟨rfl, rfl⟩
      | succ m =>
        intro d e st
        have k1 : soTraversePath cycleEnv (m + 2) "/l1" d e st =
            soTraversePath cycleEnv (m + 1) "/l2" 0 1 st := rfl
        have k2 : soTraversePath cycleEnv (m + 2) "/l2" d e st =
            soTraversePath cycleEnv (m + 1) "/l1" 0 2 st := rfl
        exact ⟨k1.trans (ih 0 1 st).2, k2.trans (ih 0 2 st).1⟩
  refine ⟨main, ?_⟩
  have k : soGetDirEntryByPath cycleEnv fuel "/l1" =
      match soTraversePath cycleEnv fuel "/l1" 0 0 ⟨0, 0⟩ with
      | none => none
      | some (stat, _, d, e) => if stat ≠ 0 then some (stat, d, e) else some (0, d, e) :=
    rfl
  rw [k, (main 0 0 ⟨0, 0⟩).1]

end Sofs14
